import Mathlib

/-! Two-distribution z-score classifier (`data_processor.cpp`).

A shallow embedding of the three class templates `DataGenerator<T>`,
`DataProcessor<T>`, `DataClassifier<T>` and of the body of the thread started by
`main`, followed by theorems about them.

Modelling conventions.

* Arithmetic on `T` is exact: a finite value of type `T` is a rational number.
  The quotient of a division by zero is the IEEE value (an infinity or NaN), kept
  apart from the finite values in `FVal`.
* `int` is the 32-bit signed integer type in two's complement.  C++ leaves
  undefined the conversion of a value that does not fit and `abs` of the least
  `int`; the definitions give them the values of the x86-64 code: the conversion
  instruction delivers the least `int`, and negation wraps modulo 2^32.
* The requirement `a ≤ b` of `uniform_real_distribution` is a debug assertion of
  the library only; the draw is computed by the same arithmetic for every `a`, `b`.
* A member function takes the object state as its first argument and returns the
  outcome of the call together with the new object state.  The `lock_guard` on the
  global mutex has no effect on a single call and is not represented.
* The random engine of one `Generate` call is a stream `g : Nat → ℚ`; `g k` is the
  `k`-th canonical variate (a number of the unit interval) that the freshly seeded
  engine delivers.
-/

namespace DataProc

/-! ## Outcomes of calls -/

/-- Failure kinds named by the error taxonomy of the specification.  The source
defines no such type and never raises; the type only serves to state that. -/
inductive Error where
  | InvalidRange
  | InvalidParameter
  | DivisionByZero
  | NumericAnomaly
  deriving DecidableEq, Repr

/-- Outcome of executing a call: it returns `v`, it fails with an error, or its
behaviour is undefined (no value is returned and no error is reported). -/
inductive Outcome (α : Type) where
  | value (v : α)
  | raised (e : Error)
  | undefined
  deriving DecidableEq, Repr

/-! ## Numbers -/

/-- A value of the floating-point type `T`: a finite number, an infinity or NaN. -/
inductive FVal where
  | fin (q : ℚ)
  | posInf
  | negInf
  | nan
  deriving DecidableEq

/-- Floating-point division `x / y` of finite operands; a zero divisor gives an
infinity of the sign of `x`, or NaN for `0 / 0`. -/
def fdiv (x y : ℚ) : FVal :=
  if y = 0 then
    if 0 < x then FVal.posInf else if x < 0 then FVal.negInf else FVal.nan
  else FVal.fin (x / y)

/-- Least value of `int`. -/
def INT_MIN : Int := -2147483648

/-- Greatest value of `int`. -/
def INT_MAX : Int := 2147483647

/-- Rounding toward zero. -/
def truncate (q : ℚ) : Int := if 0 ≤ q then ⌊q⌋ else -⌊-q⌋

/-- Reduction of an integer to the 32-bit two's complement range. -/
def wrapInt (i : Int) : Int := (i + 2147483648) % 4294967296 - 2147483648

/-- Implicit conversion of a floating-point value to `int`: the fractional part is
discarded.  When the truncated value is not an `int`, and for an infinity or NaN,
the result is the least `int` (the x86-64 conversion result for such operands). -/
def floatToInt : FVal → Int
  | FVal.fin q => if INT_MIN ≤ truncate q ∧ truncate q ≤ INT_MAX then truncate q else INT_MIN
  | _ => INT_MIN

/-- The C library function `int abs(int)`, the only `abs` visible to an unqualified
call in a translation unit that includes neither `<cmath>` nor `<cstdlib>`
and whose argument is of fundamental type (no argument-dependent lookup).
A negative argument is negated in 32-bit arithmetic, so the least `int` is
returned unchanged. -/
def cAbs (i : Int) : Int :=
  if i < 0 then wrapInt (-i) else i

/-- The expression `abs(z)` for `z` of type `T`: conversion to `int`, then `cAbs`. -/
def absOfFloat (z : FVal) : Int :=
  cAbs (floatToInt z)

/-- The call `distribution(generator)` of a `uniform_real_distribution<T>(a, b)` on
the canonical variate `u`: `u * (b - a) + a`, with no test of `a ≤ b`. -/
def uniform_real_distribution (a b u : ℚ) : ℚ :=
  u * (b - a) + a

/-- Canonical variates lie in the unit interval (the upper end is allowed, as a
rounded variate may reach it). -/
def Canonical (g : Nat → ℚ) : Prop := ∀ k, 0 ≤ g k ∧ g k ≤ 1

/-! ## The three classes -/

/-- Data members of `DataGenerator<T>`, with the values set by its constructor. -/
structure DataGenerator where
  data_start : ℚ := 0
  data_end : ℚ := 0
  dist_samples : Int := 0
  deriving DecidableEq

/-- Member function `T Generate(T a, T b, int n)`.
The loop `for (int i = 0; i < n; i++)` tests `0 < n` first; its body draws one
value and returns it, so no second iteration exists.  When the test fails the
function reaches its closing brace without a `return`. -/
def DataGenerator.Generate (_self : DataGenerator) (a b : ℚ) (n : Int) (g : Nat → ℚ) :
    Outcome ℚ × DataGenerator :=
  let self : DataGenerator := { data_start := a, data_end := b, dist_samples := n }
  if 0 < n then
    let output := uniform_real_distribution self.data_start self.data_end (g 0)
    (Outcome.value output, self)
  else
    (Outcome.undefined, self)

/-- Data members of `DataProcessor<T>`, with the values set by its constructor. -/
structure DataProcessor where
  sample : ℚ := 10
  d1_mean : ℚ := 0
  d1_std : ℚ := 0
  d2_mean : ℚ := 0
  d2_std : ℚ := 0
  deriving DecidableEq

/-- Member function `std::pair<T, T> Process(T samp, T d1, T s1, T d2, T s2)`. -/
def DataProcessor.Process (_self : DataProcessor) (samp d1 s1 d2 s2 : ℚ) :
    Outcome (FVal × FVal) × DataProcessor :=
  let self : DataProcessor :=
    { sample := samp, d1_mean := d1, d1_std := s1, d2_mean := d2, d2_std := s2 }
  let z1 := fdiv (self.sample - self.d1_mean) self.d1_std
  let z2 := fdiv (self.sample - self.d2_mean) self.d2_std
  (Outcome.value (z1, z2), self)

/-- Data member of `DataClassifier<T>`, with the value set by its constructor. -/
structure DataClassifier where
  zscores : FVal × FVal := (FVal.fin 0, FVal.fin 0)
  deriving DecidableEq

/-- Member function `std::string Classify(std::pair<T, T> zs)`.  The returned
strings end with a line feed, as in the source. -/
def DataClassifier.Classify (_self : DataClassifier) (zs : FVal × FVal) :
    Outcome String × DataClassifier :=
  let self : DataClassifier := { zscores := zs }
  if absOfFloat self.zscores.1 < absOfFloat self.zscores.2 then
    (Outcome.value "Distribution 1\n", self)
  else
    (Outcome.value "Distribution 2\n", self)

/-! ## The thread body of `main` -/

/-- The values written as literals in `main`. -/
structure Config where
  dist_samples : Int
  low : ℚ
  high : ℚ
  d1_mean : ℚ
  d1_std : ℚ
  d2_mean : ℚ
  d2_std : ℚ

/-- The literals of the source: 10 samples, range 1 to 100, distributions
(30, 4) and (90, 12). -/
def mainConfig : Config :=
  { dist_samples := 10, low := 1, high := 100,
    d1_mean := 30, d1_std := 4, d2_mean := 90, d2_std := 12 }

/-- The objects shared by the threads and the text written to `std::cout`. -/
structure World where
  DG : DataGenerator := {}
  DP : DataProcessor := {}
  DC : DataClassifier := {}
  cout : List String := []

/-- One execution of the lambda run by each thread: `Generate`, `Process`,
`Classify`, then output of the label.  A step runs only if the previous call
returned a value. -/
def trial (cfg : Config) (w : World) (g : Nat → ℚ) : Outcome Unit × World :=
  match w.DG.Generate cfg.low cfg.high cfg.dist_samples g with
  | (Outcome.value sample, dg) =>
    match w.DP.Process sample cfg.d1_mean cfg.d1_std cfg.d2_mean cfg.d2_std with
    | (Outcome.value zscores, dp) =>
      match w.DC.Classify zscores with
      | (Outcome.value label, dc) =>
        (Outcome.value (), { DG := dg, DP := dp, DC := dc, cout := w.cout ++ [label] })
      | (Outcome.raised e, dc) => (Outcome.raised e, { w with DG := dg, DP := dp, DC := dc })
      | (Outcome.undefined, dc) => (Outcome.undefined, { w with DG := dg, DP := dp, DC := dc })
    | (Outcome.raised e, dp) => (Outcome.raised e, { w with DG := dg, DP := dp })
    | (Outcome.undefined, dp) => (Outcome.undefined, { w with DG := dg, DP := dp })
  | (Outcome.raised e, dg) => (Outcome.raised e, { w with DG := dg })
  | (Outcome.undefined, dg) => (Outcome.undefined, { w with DG := dg })

/-! ## Auxiliary facts -/

/-- The magnitude of the truncated value is the integer part of the magnitude. -/
theorem truncate_abs (q : ℚ) : |truncate q| = ⌊|q|⌋ := by
  unfold truncate
  by_cases h : 0 ≤ q
  · rw [if_pos h, abs_of_nonneg h, abs_of_nonneg (Int.floor_nonneg.mpr h)]
  · have h1 : (0 : ℚ) ≤ -q := by linarith
    rw [if_neg h, abs_neg, abs_of_neg (not_le.mp h), abs_of_nonneg (Int.floor_nonneg.mpr h1)]

/-- Magnitudes below 2^31 truncate into the range of `int`, above its least value. -/
theorem truncate_int_range (q : ℚ) (h : |q| < 2147483648) :
    INT_MIN < truncate q ∧ truncate q ≤ INT_MAX := by
  have h1 : |truncate q| < 2147483648 := by
    rw [truncate_abs, Int.floor_lt]
    exact_mod_cast h
  have h2 := abs_lt.mp h1
  unfold INT_MIN INT_MAX
  constructor <;> omega

/-- Within the range of `int`, `abs(z)` is the integer part of `|z|`. -/
theorem absOfFloat_fin (q : ℚ) (h : |q| < 2147483648) :
    absOfFloat (FVal.fin q) = ⌊|q|⌋ := by
  obtain ⟨h1, h2⟩ := truncate_int_range q h
  have h3 : floatToInt (FVal.fin q) = truncate q := by
    simp [floatToInt, le_of_lt h1, h2]
  rw [absOfFloat, h3, ← truncate_abs]
  unfold INT_MIN at h1
  unfold INT_MAX at h2
  unfold cAbs wrapInt
  split_ifs with hneg
  · rw [abs_of_neg hneg]; omega
  · rw [abs_of_nonneg (not_lt.mp hneg)]

/-- What `Classify` computes on z-scores within the range of `int`: it compares the
integer parts of the magnitudes. -/
theorem Classify_int_range (dc : DataClassifier) (z1 z2 : ℚ)
    (h1 : |z1| < 2147483648) (h2 : |z2| < 2147483648) :
    (dc.Classify (FVal.fin z1, FVal.fin z2)).1 =
      Outcome.value (if ⌊|z1|⌋ < ⌊|z2|⌋ then "Distribution 1\n" else "Distribution 2\n") := by
  unfold DataClassifier.Classify
  simp only [absOfFloat_fin z1 h1, absOfFloat_fin z2 h2]
  split_ifs <;> rfl

/-- `Classify` returns one of its two labels on every pair, and stores the pair. -/
theorem Classify_returns (dc : DataClassifier) (zs : FVal × FVal) :
    ∃ label, dc.Classify zs = (Outcome.value label, { zscores := zs }) := by
  simp only [DataClassifier.Classify]
  split_ifs
  · exact ⟨_, rfl⟩
  · exact ⟨_, rfl⟩

/-- For `n ≥ 1` the value returned by `Generate` is the first draw, whatever `n`
and the previous object state are. -/
theorem Generate_first_draw (dg : DataGenerator) (low high : ℚ) (n : Int) (g : Nat → ℚ)
    (hn : 1 ≤ n) :
    (dg.Generate low high n g).1 = Outcome.value (g 0 * (high - low) + low) := by
  have h0 : (0 : Int) < n := by omega
  simp [DataGenerator.Generate, uniform_real_distribution, h0]

/-- Every point of the interval is the draw of some canonical variate: the draws
range over the whole of [low, high]. -/
theorem Generate_covers_range (dg : DataGenerator) (low high x : ℚ) (count : Int)
    (hr : low ≤ high) (hn : 1 ≤ count) (h1 : low ≤ x) (h2 : x ≤ high) :
    ∃ g, Canonical g ∧ (dg.Generate low high count g).1 = Outcome.value x := by
  rcases eq_or_lt_of_le hr with he | hlt
  · refine ⟨fun _ => 0, fun _ => ⟨le_refl 0, zero_le_one⟩, ?_⟩
    rw [Generate_first_draw dg low high count _ hn]
    have : x = low := le_antisymm (he ▸ h2) h1
    simp [this]
  · have hpos : 0 < high - low := sub_pos.mpr hlt
    refine ⟨fun _ => (x - low) / (high - low), fun _ => ⟨?_, ?_⟩, ?_⟩
    · exact div_nonneg (sub_nonneg.mpr h1) (le_of_lt hpos)
    · rw [div_le_one hpos]; linarith
    · rw [Generate_first_draw dg low high count _ hn]
      simp only [div_mul_cancel₀ _ (ne_of_gt hpos)]
      congr 1; ring

/-! ## Theorems for the claims -/

/-- C1: the rule "Distribution 1 exactly when |z1| < |z2|" fails on the code at
the pair (0.25, 0.9): although |0.25| < |0.9|, `Classify` returns "Distribution 2",
because both z-scores are truncated to the integer 0 before they are compared. -/
theorem Classify_quarter_nine_tenths (dc : DataClassifier) :
    |(1/4 : ℚ)| < |(9/10 : ℚ)| ∧
    (dc.Classify (FVal.fin (1/4), FVal.fin (9/10))).1 = Outcome.value "Distribution 2\n" := by
  refine ⟨by norm_num [abs_of_pos], ?_⟩
  rw [Classify_int_range dc _ _ (by norm_num [abs_lt]) (by norm_num [abs_lt])]
  norm_num [abs_of_pos]

/-- C2: for positive standard deviations `Process` returns the pair of the exact
quotients (sample - mean1)/std1 and (sample - mean2)/std2, in this order. -/
theorem Process_zscores (dp : DataProcessor) (samp d1 s1 d2 s2 : ℚ)
    (h1 : 0 < s1) (h2 : 0 < s2) :
    (dp.Process samp d1 s1 d2 s2).1 =
      Outcome.value (FVal.fin ((samp - d1) / s1), FVal.fin ((samp - d2) / s2)) := by
  simp [DataProcessor.Process, fdiv, ne_of_gt h1, ne_of_gt h2]

/-- C2 at the parameters of `main` and the sample 31. -/
theorem Process_zscores_witness :
    (0 : ℚ) < 4 ∧ (0 : ℚ) < 12 ∧
    (({} : DataProcessor).Process 31 30 4 90 12).1 =
      Outcome.value (FVal.fin ((31 - 30) / 4), FVal.fin ((31 - 90) / 12)) :=
  ⟨by norm_num, by norm_num, Process_zscores {} 31 30 4 90 12 (by norm_num) (by norm_num)⟩

/-- C3: with distributions (30, 4) and (90, 12), sample 31 gives the z-scores 1/4
and -59/12, labelled "Distribution 1"; sample 85 gives 55/4 and -5/12, labelled
"Distribution 2". -/
theorem end_to_end_scenarios (dp : DataProcessor) (dc : DataClassifier) :
    (dp.Process 31 30 4 90 12).1 = Outcome.value (FVal.fin (1/4), FVal.fin (-59/12)) ∧
    (dc.Classify (FVal.fin (1/4), FVal.fin (-59/12))).1 = Outcome.value "Distribution 1\n" ∧
    (dp.Process 85 30 4 90 12).1 = Outcome.value (FVal.fin (55/4), FVal.fin (-5/12)) ∧
    (dc.Classify (FVal.fin (55/4), FVal.fin (-5/12))).1 = Outcome.value "Distribution 2\n" := by
  refine ⟨?_, ?_, ?_, ?_⟩
  · simp [DataProcessor.Process, fdiv]; norm_num
  · rw [Classify_int_range dc _ _ (by norm_num [abs_lt]) (by norm_num [abs_lt])]
    norm_num [abs_of_pos]
  · simp [DataProcessor.Process, fdiv]; norm_num
  · rw [Classify_int_range dc _ _ (by norm_num [abs_lt]) (by norm_num [abs_lt])]
    norm_num [abs_of_pos]

/-- C5 (counterexample): with std1 = 0 the call `Process(31, 30, 0, 90, 12)` returns a
pair, whose first component is the infinite quotient 1/0; with std1 = -4 it returns
the pair obtained by dividing by -4.  Neither call fails. -/
theorem Process_nonpositive_std_returns :
    (({} : DataProcessor).Process 31 30 0 90 12).1 =
      Outcome.value (FVal.posInf, FVal.fin (-59/12)) ∧
    (({} : DataProcessor).Process 31 30 0 90 12).1 ≠ Outcome.raised Error.DivisionByZero ∧
    (({} : DataProcessor).Process 31 30 0 90 12).1 ≠ Outcome.raised Error.InvalidParameter ∧
    (({} : DataProcessor).Process 31 30 (-4) 90 12).1 =
      Outcome.value (FVal.fin ((31 - 30) / (-4)), FVal.fin ((31 - 90) / 12)) := by
  have h : (({} : DataProcessor).Process 31 30 0 90 12).1 =
      Outcome.value (FVal.posInf, FVal.fin (-59/12)) := by
    simp [DataProcessor.Process, fdiv]; norm_num
  refine ⟨h, ?_, ?_, ?_⟩
  · rw [h]; simp
  · rw [h]; simp
  · simp [DataProcessor.Process, fdiv]

/-- C5 (amended): `Process` validates nothing.  For all standard deviations, the
non-positive ones included, it raises no error and returns a pair; a component
whose standard deviation is not zero (negative included) is the exact quotient
(sample - mean)/std, a component whose standard deviation is zero is an infinity
or NaN.  A trial configured like `main` but with std1 = 0 is not stopped before it
runs: `Generate` and `Process` return, and the trial raises no error. -/
theorem Process_no_validation (dp : DataProcessor) (samp d1 s1 d2 s2 : ℚ) :
    (∃ z1 z2, (dp.Process samp d1 s1 d2 s2).1 = Outcome.value (z1, z2) ∧
      ((s1 ≠ 0 ∧ z1 = FVal.fin ((samp - d1) / s1)) ∨
        (s1 = 0 ∧ (z1 = FVal.posInf ∨ z1 = FVal.negInf ∨ z1 = FVal.nan))) ∧
      ((s2 ≠ 0 ∧ z2 = FVal.fin ((samp - d2) / s2)) ∨
        (s2 = 0 ∧ (z2 = FVal.posInf ∨ z2 = FVal.negInf ∨ z2 = FVal.nan)))) ∧
    (∀ (w : World) (g : Nat → ℚ), ∃ sample zs,
      (w.DG.Generate mainConfig.low mainConfig.high mainConfig.dist_samples g).1 =
        Outcome.value sample ∧
      (w.DP.Process sample mainConfig.d1_mean 0 mainConfig.d2_mean mainConfig.d2_std).1 =
        Outcome.value zs ∧
      (∀ e, (trial { mainConfig with d1_std := 0 } w g).1 ≠ Outcome.raised e)) := by
  have key : ∀ x : ℚ, fdiv x 0 = FVal.posInf ∨ fdiv x 0 = FVal.negInf ∨ fdiv x 0 = FVal.nan := by
    intro x
    unfold fdiv
    by_cases hx : 0 < x
    · simp [hx]
    · by_cases hx2 : x < 0
      · simp [hx, hx2]
      · simp [hx, hx2]
  have comp : ∀ x s : ℚ, (s ≠ 0 ∧ fdiv x s = FVal.fin (x / s)) ∨
      (s = 0 ∧ (fdiv x s = FVal.posInf ∨ fdiv x s = FVal.negInf ∨ fdiv x s = FVal.nan)) := by
    intro x s
    by_cases h0 : s = 0
    · subst h0; exact Or.inr ⟨rfl, key x⟩
    · exact Or.inl ⟨h0, by simp [fdiv, h0]⟩
  refine ⟨?_, ?_⟩
  · exact ⟨fdiv (samp - d1) s1, fdiv (samp - d2) s2, by simp [DataProcessor.Process],
      comp _ _, comp _ _⟩
  · intro w g
    refine ⟨g 0 * (100 - 1) + 1, (fdiv (g 0 * (100 - 1) + 1 - 30) 0,
      fdiv (g 0 * (100 - 1) + 1 - 90) 12), ?_, ?_, ?_⟩
    · simp [DataGenerator.Generate, uniform_real_distribution, mainConfig]
    · simp [DataProcessor.Process, mainConfig]
    · intro e
      obtain ⟨label, hl⟩ := Classify_returns w.DC
        (fdiv (uniform_real_distribution 1 100 (g 0) - 30) 0,
          fdiv (uniform_real_distribution 1 100 (g 0) - 90) 12)
      simp [trial, DataGenerator.Generate, mainConfig, DataProcessor.Process, hl]

/-- C6: for low ≤ high, count ≥ 1 and any canonical draw, `Generate` returns a
value between low and high (both ends included). -/
theorem Generate_in_range (dg : DataGenerator) (low high : ℚ) (count : Int) (g : Nat → ℚ)
    (hr : low ≤ high) (hn : 1 ≤ count) (hg : Canonical g) :
    ∃ v, (dg.Generate low high count g).1 = Outcome.value v ∧ low ≤ v ∧ v ≤ high := by
  refine ⟨g 0 * (high - low) + low, Generate_first_draw dg low high count g hn, ?_, ?_⟩
  · have := mul_nonneg (hg 0).1 (sub_nonneg.mpr hr)
    linarith
  · have := mul_le_mul_of_nonneg_right (hg 0).2 (sub_nonneg.mpr hr)
    linarith

/-- C6 at the range and count of `main`, with every canonical variate equal
to 1/2. -/
theorem Generate_in_range_witness :
    (1 : ℚ) ≤ 100 ∧ (1 : Int) ≤ 10 ∧ Canonical (fun _ => 1/2) ∧
    ∃ v, (({} : DataGenerator).Generate 1 100 10 (fun _ => 1/2)).1 = Outcome.value v ∧
      1 ≤ v ∧ v ≤ 100 :=
  ⟨by norm_num, by norm_num, fun _ => by norm_num,
    Generate_in_range {} 1 100 10 (fun _ => 1/2) (by norm_num) (by norm_num)
      (fun _ => by norm_num)⟩

/-- C7: the claim fails on the code at count = 0: the loop body never runs, the
function ends without a `return`, and `Generate(1, 100, 0)` yields no defined
sample. -/
theorem Generate_zero_count (dg : DataGenerator) (g : Nat → ℚ) :
    (dg.Generate 1 100 0 g).1 = Outcome.undefined := by
  simp [DataGenerator.Generate]

/-- C10: the boundary claim fails on the code at the sample 44 of the range of
`main`: 44 < 45, the z-scores are 7/2 and -23/6, both are truncated to magnitude 3,
and the label is "Distribution 2". -/
theorem pipeline_sample_44 (dp : DataProcessor) (dc : DataClassifier) :
    (1 : ℚ) ≤ 44 ∧ (44 : ℚ) ≤ 100 ∧ (44 : ℚ) < 45 ∧
    (dp.Process 44 mainConfig.d1_mean mainConfig.d1_std mainConfig.d2_mean
      mainConfig.d2_std).1 = Outcome.value (FVal.fin (7/2), FVal.fin (-23/6)) ∧
    (dc.Classify (FVal.fin (7/2), FVal.fin (-23/6))).1 = Outcome.value "Distribution 2\n" := by
  refine ⟨by norm_num, by norm_num, by norm_num, ?_, ?_⟩
  · simp [DataProcessor.Process, fdiv, mainConfig]; norm_num
  · rw [Classify_int_range dc _ _ (by norm_num [abs_lt]) (by norm_num [abs_lt])]
    norm_num [abs_of_pos]

end DataProc
